import Mathlib

/-!
Verification of the retrieval-augmented tutoring chat service (`app.py`,
`config.py`).

Modelling conventions:
* Embedding vectors and similarity scores are modelled as exact rationals
  (`ℚ`); the source computes them with IEEE floats via numpy.  The float
  `cosine_similarity` function itself is modelled separately over `ℝ`
  (`cosine_similarity` below), since it involves square roots.
* The ranking, filtering and orchestration logic of `vector_search`,
  `get_relevant_context` and `chat_api` never look inside the similarity
  computation: they only compare scores.  The similarity function is
  therefore an explicit parameter `sim` of those definitions, standing for
  the call `cosine_similarity(query_embedding, doc_embedding)` in the
  source.
* A MongoDB document field that may be absent is an `Option`; Python
  truthiness of a retrieved field (`if doc_embedding and doc.get("text")`)
  is `none`-or-empty checks.
* Each call to `datetime.utcnow()` is modelled by an explicit `Nat`
  timestamp parameter.
* External services — the embedding provider and the chat model — are
  oracles: `String → Option (List ℚ)` and
  `List ChatMsg → Except String String`; `none` / `.error` model a raised
  provider exception caught by the `try/except` of the source.
-/

/-- `TOP_K_RESULTS` from `config.py` line 26. -/
def TOP_K_RESULTS : Nat := 5

/-- `OPENAI_EMBEDDING_DIMENSIONS` from `config.py` line 10. -/
def OPENAI_EMBEDDING_DIMENSIONS : Nat := 3072

/-- The `COLLECTIONS` dict from `config.py` lines 16-19, as the partial map
used by `COLLECTIONS.get(subject)` / `subject in COLLECTIONS`. -/
def COLLECTIONS (subject : String) : Option String :=
  if subject = "Computer" then some "Computer"
  else if subject = "Math" then some "Math"
  else none

/-- A stored MongoDB document as projected by the `collection.find` call in
`vector_search` (`app.py` lines 63-66): only the `text` and `embedding`
fields matter.  `none` models an absent field; `some []` / `some ""` model a
present but Python-falsy value. -/
structure StoredDoc where
  text : Option String
  embedding : Option (List ℚ)
deriving DecidableEq

/-- One element of the `results` list built by `vector_search`
(`app.py` lines 78-81): a passage text paired with its similarity score. -/
structure ScoredResult where
  text : String
  score : ℚ
deriving DecidableEq

/-- The scoring loop of `vector_search` (`app.py` lines 62-81): keep the
documents whose `embedding` field exists (the Mongo filter
`{"embedding": {"$exists": True}}`), then for each document whose
`embedding` and `text` are both truthy append `{text, score}` where the
score is the similarity of the query embedding with the document
embedding. -/
def scored_candidates (sim : List ℚ → List ℚ → ℚ) (docs : List StoredDoc)
    (query_embedding : List ℚ) : List ScoredResult :=
  (docs.filter (fun d => d.embedding.isSome)).filterMap (fun doc =>
    match doc.embedding, doc.text with
    | some e, some t =>
        if e ≠ [] ∧ t ≠ "" then some ⟨t, sim query_embedding e⟩ else none
    | _, _ => none)

/-- `vector_search` from `app.py` lines 57-92.  `sim` stands for
`cosine_similarity`.  The Python `results.sort(key=lambda x: x["score"],
reverse=True)` is a stable descending sort, modelled by `mergeSort` with
the comparator `b.score ≤ a.score` (the Python sort is stable and
`reverse=True` keeps equal elements in their original order); the final
`results[:limit]` is `take limit`. -/
def vector_search (sim : List ℚ → List ℚ → ℚ) (docs : List StoredDoc)
    (query_embedding : List ℚ) (limit : Nat := TOP_K_RESULTS) :
    List ScoredResult :=
  let documents := docs.filter (fun d => d.embedding.isSome)
  if documents = [] then []
  else
    ((scored_candidates sim docs query_embedding).mergeSort
      (fun a b => b.score ≤ a.score)).take limit

/-- `get_relevant_context` from `app.py` lines 95-143.  `dbColl` models
`db[collection_name]` (the candidate documents of one corpus partition) and
`generate_embedding` the embedding provider (`app.py` lines 31-42), with
`none` for a provider failure.  `if not query_embedding` is true in Python
both for `None` and for an empty list, hence the separate `= []` test. -/
def get_relevant_context (sim : List ℚ → List ℚ → ℚ)
    (dbColl : String → List StoredDoc)
    (generate_embedding : String → Option (List ℚ))
    (subject user_query : String) (min_score : ℚ := 3/10) : List String :=
  match COLLECTIONS subject with
  | none => []
  | some collection_name =>
    match generate_embedding user_query with
    | none => []
    | some query_embedding =>
      if query_embedding = [] then []
      else if query_embedding.length ≠ OPENAI_EMBEDDING_DIMENSIONS then []
      else
        let results := vector_search sim (dbColl collection_name)
          query_embedding TOP_K_RESULTS
        let filtered_results := results.filter
          (fun r => min_score ≤ r.score ∧ r.text ≠ "")
        let filtered_results :=
          if filtered_results = [] ∧ results ≠ [] then
            match results with
            | top_result :: _ =>
                if top_result.text ≠ "" then [top_result] else []
            | [] => []
          else filtered_results
        filtered_results.map (fun r => r.text)

/-- A chat message as stored in the `conversations` collection
(`app.py` lines 233-244): role, content and its own `datetime.utcnow()`
timestamp. -/
structure Message where
  role : String
  content : String
  timestamp : Nat
deriving DecidableEq

/-- A document of the `conversations` collection (`app.py` lines 230-258):
`created_at` is set only on the insert path, hence an `Option`. -/
structure Conversation where
  conversation_id : String
  subject : String
  messages : List Message
  created_at : Option Nat
  updated_at : Nat
deriving DecidableEq

/-- `conversations_collection.find_one({"conversation_id": cid})`:
the first stored conversation with the given id, if any. -/
def find_one : List Conversation → String → Option Conversation
  | [], _ => none
  | c :: cs, cid =>
      if c.conversation_id = cid then some c else find_one cs cid

/-- `conversations_collection.update_one({"conversation_id": cid},
{"$push": {"messages": {"$each": newMessages}}, "$set": {"updated_at":
tUpd}})` (`app.py` lines 249-255): the MongoDB `update_one` updates the first
matching document only. -/
def update_first (store : List Conversation) (cid : String)
    (newMessages : List Message) (tUpd : Nat) : List Conversation :=
  match store with
  | [] => []
  | c :: cs =>
      if c.conversation_id = cid then
        { c with messages := c.messages ++ newMessages,
                 updated_at := tUpd } :: cs
      else c :: update_first cs cid newMessages tUpd

/-- The persistence block that `chat_api` runs twice, once on the
out-of-domain path (`app.py` lines 226-258) and once after a successful
model call (lines 295-326): build the user/assistant message pair, then
either `$push` it onto the existing conversation and `$set` `updated_at`,
or insert a fresh document that additionally carries `created_at`.
`tUser`, `tAsst`, `tUpd`, `tCreated` model the separate `datetime.utcnow()`
calls. -/
def persist_turn (store : List Conversation)
    (conversation_id subject : String)
    (user_content assistant_content : String)
    (tUser tAsst tUpd tCreated : Nat) : List Conversation :=
  let newMessages : List Message :=
    [⟨"user", user_content, tUser⟩, ⟨"assistant", assistant_content, tAsst⟩]
  match find_one store conversation_id with
  | some _ => update_first store conversation_id newMessages tUpd
  | none =>
      store ++ [⟨conversation_id, subject, newMessages, some tCreated, tUpd⟩]

/-- A message sent to the chat-completions API (`app.py` lines 270-283):
a `{"role": ..., "content": ...}` dict. -/
structure ChatMsg where
  role : String
  content : String
deriving DecidableEq

/-- The part of the `create_teaching_prompt` f-string (`app.py` lines
152-167) before the `{context}` interpolation slot. -/
def teachingPromptBeforeContext : String :=
  "You are Habib, an AI tutor for a Higher Secondary School. You are a warm, patient, and encouraging mentor who centers every conversation around the student\x27s learning journey.\n\nYour student-centered teaching philosophy:\n1. **Start where the student is**: Acknowledge their question or thought first before diving into explanations. Use phrases like \"That\x27s a great question!\" or \"I love that you\x27re thinking about this!\"\n2. **Use \"you\" language**: Speak directly to the student (e.g., \"You\x27ve just learned that...\" instead of \"This concept shows that...\")\n3. **Make it personal and relatable**: Connect concepts to their experiences, interests, or things they already know\n4. **Encourage active thinking**: Instead of just explaining, ask \"What do you think happens if...?\" or \"Can you imagine...?\"\n5. **Validate their efforts**: Celebrate their attempts, questions, and progress, not just correct answers\n6. **Check in frequently**: Ask \"Does this make sense?\" or \"What\x27s your take on this?\" to ensure they\x27re following along\n7. **Empower their curiosity**: Encourage them to ask follow-up questions and explore further\n8. **Break it down naturally**: If they seem confused, say things like \"Let\x27s pause here - what part would you like me to clarify?\" rather than just diving into more detail\n9. **Build confidence**: Use positive reinforcement like \"You\x27re getting the hang of this!\" or \"You\x27re thinking like a scientist!\"\n10. **Be conversational and warm**: Write like you\x27re chatting with a friend who wants to learn, not lecturing\n\nCurrent topic context from the Computer Science Grade 12 textbook (National Book Foundation, Federal Textbook Board):\n"

/-- The part of the `create_teaching_prompt` f-string (`app.py` lines
167-175) after the `{context}` interpolation slot. -/
def teachingPromptAfterContext : String :=
  "\n\nCRITICAL INSTRUCTION: You MUST ONLY answer questions based on the provided textbook context above. The textbook is \"Textbook of Computer Science Grade 12\" published by National Book Foundation, Federal Textbook Board, Islamabad (2018). \n\nIf a student asks about something that is NOT covered in the provided context, acknowledge their curiosity first, then gently redirect: \"That\x27s an interesting question! Unfortunately, that topic isn\x27t covered in the Grade 12 Computer Science textbook we\x27re working with right now. But I\x27d love to help you understand what IS in the textbook - is there something specific from the material you\x27d like to explore?\"\n\nYou must NOT use any knowledge outside of what\x27s provided in the context. All answers must be grounded strictly in the Computer Science Grade 12 textbook content provided above.\n\nRemember: The student is the hero of this learning story. Your role is to guide, support, and celebrate their growth. Keep responses conversational, warm, engaging, and always focused on helping THEM understand and succeed."

/-- `create_teaching_prompt` from `app.py` lines 146-177: join the context
passages with a blank line (`"\n\n".join(context_texts)`), or insert the
marker `"No specific context available."` when the list is Python-falsy
(empty); splice the result into the fixed persona/grounding template.  The
`conversation_history` parameter is accepted and ignored, as in the
source. -/
def create_teaching_prompt (context_texts : List String)
    (conversation_history : List Message) : String :=
  let context :=
    if context_texts ≠ [] then String.intercalate "\n\n" context_texts
    else "No specific context available."
  teachingPromptBeforeContext ++ context ++ teachingPromptAfterContext

/-- The fixed out-of-domain refusal built in `chat_api`
(`app.py` lines 219-224), with the subject interpolated. -/
def out_of_domain_response_text (subject : String) : String :=
  "That\x27s an interesting question! Unfortunately, that topic isn\x27t covered in the material we\x27re working with right now. I can only help you with questions about " ++ subject ++ " that are in the textbook. Is there something specific from the material you\x27d like to explore?"

/-- The model-input assembly of `chat_api` (`app.py` lines 265-283): the
system prompt built from the retrieved context and the stored messages,
then the last ten stored messages (`messages[-10:]`, skipped when the
conversation is absent or its message list is Python-falsy), then the new
user message. -/
def build_model_input (context_texts : List String)
    (conversation_doc : Option Conversation)
    (user_message : String) : List ChatMsg :=
  let system_prompt := create_teaching_prompt context_texts
    (match conversation_doc with | some c => c.messages | none => [])
  let history : List Message :=
    match conversation_doc with
    | some c =>
        if c.messages ≠ [] then c.messages.drop (c.messages.length - 10)
        else []
    | none => []
  [⟨"system", system_prompt⟩] ++
    history.map (fun m => ⟨m.role, m.content⟩) ++
    [⟨"user", user_message⟩]

/-- The three HTTP outcomes of the `/api/chat` handler: `400` with an error
payload, `200` with `{response, conversation_id}`, `500` with the exception
text. -/
inductive ApiResult where
  | badRequest (error : String)
  | ok (response : String) (conversation_id : String)
  | serverError (error : String)
deriving DecidableEq

/-- `chat_api` from `app.py` lines 199-335.  `chat_completion` is the chat
model oracle (`openai_client.chat.completions.create`); `.error e` models a
provider exception, caught by the `try/except` of the handler and returned as a
500 response with `str(e)` — without reaching the persistence block.  The
third component of the result is the trace of model invocations (each
element is the `messages` argument of one call), so that claims about
"the model is / is not called" are statable.  `conversation_id` is the
already-resolved id (body value, else session value, else a fresh uuid). -/
def chat_api (sim : List ℚ → List ℚ → ℚ)
    (dbColl : String → List StoredDoc)
    (generate_embedding : String → Option (List ℚ))
    (chat_completion : List ChatMsg → Except String String)
    (store : List Conversation)
    (user_message subject conversation_id : String)
    (tUser tAsst tUpd tCreated : Nat) :
    ApiResult × List Conversation × List (List ChatMsg) :=
  if user_message = "" ∨ subject = "" then
    (.badRequest "Message and subject are required", store, [])
  else if (COLLECTIONS subject).isNone then
    (.badRequest "Invalid subject", store, [])
  else
    let context_texts :=
      get_relevant_context sim dbColl generate_embedding subject
        user_message (3/10)
    if context_texts = [] then
      let response := out_of_domain_response_text subject
      (.ok response conversation_id,
       persist_turn store conversation_id subject user_message response
         tUser tAsst tUpd tCreated,
       [])
    else
      let conversation_doc := find_one store conversation_id
      let messages := build_model_input context_texts conversation_doc
        user_message
      match chat_completion messages with
      | .error e => (.serverError e, store, [messages])
      | .ok ai_response =>
          (.ok ai_response conversation_id,
           persist_turn store conversation_id subject user_message
             ai_response tUser tAsst tUpd tCreated,
           [messages])

/-- `np.dot` on two vectors (`app.py` line 49), over `ℝ`. -/
def npDot (v w : List ℝ) : ℝ := (List.zipWith (fun x y => x * y) v w).sum

/-- `np.linalg.norm` (`app.py` lines 50-51): the square root of the sum of
squares. -/
noncomputable def npNorm (v : List ℝ) : ℝ := Real.sqrt (npDot v v)

/-- `cosine_similarity` from `app.py` lines 45-54, over `ℝ` (real-valued
model of the float computation): `0` when either norm is zero, otherwise
the normalized dot product. -/
noncomputable def cosine_similarity (vec1 vec2 : List ℝ) : ℝ :=
  if npNorm vec1 = 0 ∨ npNorm vec2 = 0 then 0
  else npDot vec1 vec2 / (npNorm vec1 * npNorm vec2)

/-- The message list of an optional conversation document
(`conversation_doc.get("messages", []) if conversation_doc else []`). -/
def option_messages : Option Conversation → List Message
  | some c => c.messages
  | none => []

/-- The stored history consulted by `chat_api` for a conversation id. -/
def stored_messages (store : List Conversation) (cid : String) :
    List Message :=
  option_messages (find_one store cid)

/-! ### Concrete evaluation fixtures for the witnesses -/

/-- Similarity oracle scoring every candidate 0 (below the threshold). -/
def simZero : List ℚ → List ℚ → ℚ := fun _ _ => 0

/-- Similarity oracle scoring every candidate 1 (above the threshold). -/
def simOne : List ℚ → List ℚ → ℚ := fun _ _ => 1

/-- A corpus partition with no documents. -/
def dbEmpty : String → List StoredDoc := fun _ => []

/-- A corpus partition with one complete document. -/
def dbOneDoc : String → List StoredDoc := fun _ => [⟨some "doc", some [1]⟩]

/-- An embedding provider returning a fixed vector of the deployed
dimension. -/
def embedConst : String → Option (List ℚ) :=
  fun _ => some (List.replicate OPENAI_EMBEDDING_DIMENSIONS 1)

/-- A chat model that always raises. -/
def chatFail : List ChatMsg → Except String String :=
  fun _ => .error "boom"

/-- A chat model returning a fixed reply. -/
def chatOk : List ChatMsg → Except String String := fun _ => .ok "answer"

/-! ### Helper lemmas: Similarity Engine -/

/-- Every scored candidate carries a non-empty text: the scoring loop skips
documents whose `text` is absent or empty. -/
theorem scored_candidates_text_ne (sim : List ℚ → List ℚ → ℚ)
    (docs : List StoredDoc) (q : List ℚ) :
    ∀ r ∈ scored_candidates sim docs q, r.text ≠ "" := by
  intro r hr
  simp only [scored_candidates, List.mem_filterMap] at hr
  obtain ⟨d, -, hf⟩ := hr
  obtain ⟨t0, e0⟩ := d
  rcases e0 with _ | e <;> rcases t0 with _ | t <;> simp at hf
  obtain ⟨⟨-, ht⟩, he⟩ := hf
  rw [← he]
  exact ht

/-- `vector_search` is the stable descending sort of the scored candidates,
truncated to `limit`; the early return on an empty document list agrees
with this. -/
theorem vector_search_eq (sim : List ℚ → List ℚ → ℚ) (docs : List StoredDoc)
    (q : List ℚ) (k : Nat) :
    vector_search sim docs q k =
      ((scored_candidates sim docs q).mergeSort
        (fun a b => b.score ≤ a.score)).take k := by
  simp only [vector_search]
  by_cases h : docs.filter (fun d => d.embedding.isSome) = []
  · simp [h, scored_candidates]
  · simp [h]

/-- The descending comparator of `vector_search` is transitive. -/
theorem scoreDesc_trans : ∀ (a b c : ScoredResult),
    (fun a b : ScoredResult => decide (b.score ≤ a.score)) a b →
    (fun a b : ScoredResult => decide (b.score ≤ a.score)) b c →
    (fun a b : ScoredResult => decide (b.score ≤ a.score)) a c := by
  intro a b c hab hbc
  simp only [decide_eq_true_eq] at hab hbc ⊢
  exact le_trans hbc hab

/-- The descending comparator of `vector_search` is total. -/
theorem scoreDesc_total : ∀ (a b : ScoredResult),
    ((fun a b : ScoredResult => decide (b.score ≤ a.score)) a b ||
     (fun a b : ScoredResult => decide (b.score ≤ a.score)) b a) = true := by
  intro a b
  simp only [Bool.or_eq_true, decide_eq_true_eq]
  exact le_total b.score a.score

/-- The output of `vector_search` is sorted by descending score. -/
theorem vector_search_sorted (sim : List ℚ → List ℚ → ℚ)
    (docs : List StoredDoc) (q : List ℚ) (k : Nat) :
    (vector_search sim docs q k).Pairwise
      (fun a b => b.score ≤ a.score) := by
  rw [vector_search_eq]
  apply List.Pairwise.sublist (List.take_sublist _ _)
  have h := List.sorted_mergeSort scoreDesc_trans scoreDesc_total
    (scored_candidates sim docs q)
  exact h.imp (fun hab => by simpa using hab)

/-- Stability of the sort in `vector_search`: the sorted list restricted to
any fixed score is exactly the candidate list restricted to that score, in
the original candidate order. -/
theorem mergeSort_filter_score (l : List ScoredResult) (s : ℚ) :
    ((l.mergeSort (fun a b => b.score ≤ a.score)).filter
        (fun r => r.score = s)) =
      l.filter (fun r => r.score = s) := by
  have hmem : ∀ r ∈ l.filter (fun r : ScoredResult => decide (r.score = s)),
      r.score = s := by
    intro r hr
    simpa using (List.mem_filter.mp hr).2
  have hc : (l.filter (fun r : ScoredResult => decide (r.score = s))).Pairwise
      (fun a b : ScoredResult => decide (b.score ≤ a.score) = true) := by
    apply List.pairwise_of_forall_mem_list
    intro a ha b hb
    simp [hmem a ha, hmem b hb]
  have hsub := List.sublist_mergeSort scoreDesc_trans scoreDesc_total hc
    (List.filter_sublist l)
  have hflt : List.Sublist
      (l.filter (fun r : ScoredResult => decide (r.score = s)))
      ((l.mergeSort (fun a b => decide (b.score ≤ a.score))).filter
        (fun r : ScoredResult => decide (r.score = s))) := by
    have h2 := hsub.filter (fun r : ScoredResult => decide (r.score = s))
    simpa [List.filter_filter] using h2
  have hperm := (List.mergeSort_perm l
      (fun a b => decide (b.score ≤ a.score))).filter
    (fun r : ScoredResult => decide (r.score = s))
  exact (hflt.eq_of_length hperm.length_eq.symm).symm

/-- Every result returned by `vector_search` has a non-empty text. -/
theorem vector_search_text_all (sim : List ℚ → List ℚ → ℚ)
    (docs : List StoredDoc) (q : List ℚ) (k : Nat) :
    ∀ r ∈ vector_search sim docs q k, r.text ≠ "" := by
  intro r hr
  rw [vector_search_eq] at hr
  have hr2 := List.mem_mergeSort.mp (List.take_subset _ _ hr)
  exact scored_candidates_text_ne sim docs q r hr2

/-! ### Helper lemmas: Conversation Store -/

/-- `find_one` misses exactly when no stored conversation has the id. -/
theorem find_one_eq_none_iff (store : List Conversation) (cid : String) :
    find_one store cid = none ↔ ∀ c ∈ store, c.conversation_id ≠ cid := by
  induction store with
  | nil => simp [find_one]
  | cons c cs ih =>
      by_cases h : c.conversation_id = cid <;> simp [find_one, h, ih]

/-- If the id is absent from the first block, `find_one` continues in the
second block. -/
theorem find_one_append (store rest : List Conversation) (cid : String)
    (h : find_one store cid = none) :
    find_one (store ++ rest) cid = find_one rest cid := by
  induction store with
  | nil => rfl
  | cons c cs ih =>
      by_cases hx : c.conversation_id = cid
      · simp only [find_one, if_pos hx] at h
        cases h
      · simp only [find_one, if_neg hx] at h
        simp only [List.cons_append, find_one, if_neg hx]
        exact ih h

/-- A successful `find_one` splits the store at the first conversation with
the id. -/
theorem find_one_some_decomp (store : List Conversation) (cid : String)
    (c : Conversation) (h : find_one store cid = some c) :
    ∃ pre post, store = pre ++ c :: post ∧
      (∀ d ∈ pre, d.conversation_id ≠ cid) ∧ c.conversation_id = cid := by
  induction store with
  | nil => cases h
  | cons c0 cs ih =>
      simp only [find_one] at h
      by_cases hx : c0.conversation_id = cid
      · rw [if_pos hx] at h
        obtain rfl : c0 = c := by injection h
        exact ⟨[], cs, rfl, by simp, hx⟩
      · rw [if_neg hx] at h
        obtain ⟨pre, post, hsplit, hpre, hc⟩ := ih h
        exact ⟨c0 :: pre, post, by simp [hsplit], by
          intro d hd
          rcases List.mem_cons.mp hd with rfl | hd2
          · exact hx
          · exact hpre d hd2, hc⟩

/-- `update_first` on a store split at the first match updates exactly the
matched record. -/
theorem update_first_decomp (pre post : List Conversation)
    (c : Conversation) (cid : String) (msgs : List Message) (tUpd : Nat)
    (hpre : ∀ d ∈ pre, d.conversation_id ≠ cid)
    (hc : c.conversation_id = cid) :
    update_first (pre ++ c :: post) cid msgs tUpd =
      pre ++ { c with messages := c.messages ++ msgs,
                      updated_at := tUpd } :: post := by
  induction pre with
  | nil => simp [update_first, hc]
  | cons d ds ih =>
      have hd : d.conversation_id ≠ cid := hpre d (List.mem_cons_self d ds)
      simp only [List.cons_append, update_first, if_neg hd]
      show d :: update_first (ds ++ c :: post) cid msgs tUpd = _
      rw [ih (fun x hx => hpre x (List.mem_cons_of_mem d hx))]

/-- After `persist_turn`, the conversation with the given id exists and its
message list ends with the freshly appended user/assistant pair. -/
theorem persist_turn_find (store : List Conversation)
    (cid subj umsg amsg : String) (tU tA tUp tC : Nat) :
    ∃ c, find_one (persist_turn store cid subj umsg amsg tU tA tUp tC) cid
        = some c ∧
      [⟨"user", umsg, tU⟩, ⟨"assistant", amsg, tA⟩] <:+ c.messages := by
  rcases h : find_one store cid with _ | c
  · simp only [persist_turn, h]
    refine ⟨⟨cid, subj, [⟨"user", umsg, tU⟩, ⟨"assistant", amsg, tA⟩],
      some tC, tUp⟩, ?_, ⟨[], rfl⟩⟩
    rw [find_one_append store _ cid h]
    simp [find_one]
  · obtain ⟨pre, post, hsplit, hpre, hcid⟩ := find_one_some_decomp store cid c h
    simp only [persist_turn, h]
    rw [hsplit, update_first_decomp pre post c cid _ tUp hpre hcid]
    refine ⟨{ c with
        messages := c.messages ++ [⟨"user", umsg, tU⟩, ⟨"assistant", amsg, tA⟩],
        updated_at := tUp }, ?_, ⟨c.messages, rfl⟩⟩
    rw [find_one_append pre _ cid ((find_one_eq_none_iff pre cid).mpr hpre)]
    simp [find_one, hcid]

/-- `build_model_input` in closed form: system prompt over the full stored
messages, then the last ten stored messages, then the user message. -/
theorem build_model_input_eq (ctx : List String)
    (doc : Option Conversation) (um : String) :
    build_model_input ctx doc um =
      [⟨"system", create_teaching_prompt ctx (option_messages doc)⟩] ++
        ((option_messages doc).drop
          ((option_messages doc).length - 10)).map
          (fun m => ⟨m.role, m.content⟩) ++
        [⟨"user", um⟩] := by
  rcases doc with _ | c
  · simp [build_model_input, option_messages]
  · simp only [build_model_input, option_messages]
    by_cases h : c.messages = []
    · simp [h]
    · simp [h]

/-! ### Claim theorems -/

/-- C3: Similarity Engine ranking.  For every query vector, candidate
sequence and limit `k`, the output of `vector_search` is sorted descending
by score, has length at most `k`, and candidates with equal scores appear
in their original candidate order: the output restricted to any score `s`
is a prefix of the scored candidate list restricted to `s`. -/
theorem similarity_engine_rank_spec (sim : List ℚ → List ℚ → ℚ)
    (docs : List StoredDoc) (q : List ℚ) (k : Nat) :
    (vector_search sim docs q k).length ≤ k ∧
    (vector_search sim docs q k).Pairwise (fun a b => b.score ≤ a.score) ∧
    ∀ s : ℚ,
      (vector_search sim docs q k).filter (fun r => r.score = s) <+:
        (scored_candidates sim docs q).filter (fun r => r.score = s) := by
  refine ⟨?_, vector_search_sorted sim docs q k, ?_⟩
  · rw [vector_search_eq]
    simp only [List.length_take]
    omega
  · intro s
    rw [vector_search_eq,
      ← mergeSort_filter_score (scored_candidates sim docs q) s]
    exact ⟨(((scored_candidates sim docs q).mergeSort
        (fun a b => b.score ≤ a.score)).drop k).filter
        (fun r => r.score = s),
      by rw [← List.filter_append, List.take_append_drop]⟩

/-- C4: `cosine_similarity` returns 0 when either vector has zero norm
(never undefined), otherwise `dot(a,b)/(‖a‖·‖b‖)`; consequently, for equal
vectors of non-zero norm it returns exactly 1. -/
theorem cosine_similarity_spec (vec1 vec2 : List ℝ) :
    ((npNorm vec1 = 0 ∨ npNorm vec2 = 0) →
      cosine_similarity vec1 vec2 = 0) ∧
    (npNorm vec1 ≠ 0 → npNorm vec2 ≠ 0 →
      cosine_similarity vec1 vec2 =
        npDot vec1 vec2 / (npNorm vec1 * npNorm vec2)) ∧
    (vec1 = vec2 → npNorm vec1 ≠ 0 → cosine_similarity vec1 vec2 = 1) := by
  refine ⟨fun h => by simp [cosine_similarity, h],
    fun h1 h2 => by simp [cosine_similarity, h1, h2], ?_⟩
  rintro rfl h1
  have hnn : 0 ≤ npDot vec1 vec1 := by
    simp only [npDot, List.zipWith_same]
    apply List.sum_nonneg
    intro x hx
    obtain ⟨a, -, rfl⟩ := List.mem_map.mp hx
    exact mul_self_nonneg a
  have hd : npDot vec1 vec1 ≠ 0 := by
    intro h0
    exact h1 (by simp [npNorm, h0])
  rw [cosine_similarity, if_neg (by simp [h1])]
  simp only [npNorm]
  rw [Real.mul_self_sqrt hnn]
  exact div_self hd

/-- C9: Prompt Composer marker.  The composed system prompt contains the
context passages joined with a blank-line separator, and when the passage
list is empty it contains the explicit marker
`No specific context available.` instead. -/
theorem prompt_composer_spec (context_texts : List String)
    (conversation_history : List Message) :
    (context_texts ≠ [] → ∃ before after,
      create_teaching_prompt context_texts conversation_history =
        before ++ String.intercalate "\n\n" context_texts ++ after) ∧
    (context_texts = [] → ∃ before after,
      create_teaching_prompt context_texts conversation_history =
        before ++ "No specific context available." ++ after) := by
  constructor
  · intro h
    exact ⟨teachingPromptBeforeContext, teachingPromptAfterContext,
      by simp [create_teaching_prompt, h]⟩
  · intro h
    exact ⟨teachingPromptBeforeContext, teachingPromptAfterContext,
      by simp [create_teaching_prompt, h]⟩

/-- C10: every passage produced by the retrieval pipeline has a non-empty
text: every `vector_search` result carries a non-empty text, and every
element of the output of `get_relevant_context` is a non-empty string. -/
theorem retrieval_text_nonempty_spec (sim : List ℚ → List ℚ → ℚ)
    (dbColl : String → List StoredDoc)
    (embed : String → Option (List ℚ)) (docs : List StoredDoc)
    (q : List ℚ) (lim : Nat) (subject user_query : String)
    (min_score : ℚ) :
    (∀ r ∈ vector_search sim docs q lim, r.text ≠ "") ∧
    (∀ t ∈ get_relevant_context sim dbColl embed subject user_query
        min_score, t ≠ "") := by
  refine ⟨vector_search_text_all sim docs q lim, ?_⟩
  intro t ht
  simp only [get_relevant_context] at ht
  split at ht
  · simp at ht
  · split at ht
    · simp at ht
    · split at ht
      · simp at ht
      · split at ht
        · simp at ht
        · split at ht
          · split at ht
            · split at ht
              · rename_i htop
                simp only [List.map_cons, List.map_nil,
                  List.mem_singleton] at ht
                rw [ht]
                exact htop
              · simp at ht
            · simp at ht
          · simp only [List.mem_map] at ht
            obtain ⟨r, hr, rfl⟩ := ht
            have h2 := (List.mem_filter.mp hr).2
            simp only [decide_eq_true_eq] at h2
            exact h2.2

/-- C5: fail-closed retrieval.  `get_relevant_context` returns an empty
list (and is total, hence never raises) when the subject does not resolve
to a known corpus partition, when the embedding provider fails, or when
the length of the query embedding differs from the deployment-fixed dimension
3072 (an empty embedding is also rejected, by the Python truthiness
check, and has length 0 ≠ 3072). -/
theorem fail_closed_retrieval_spec (sim : List ℚ → List ℚ → ℚ)
    (dbColl : String → List StoredDoc) (embed : String → Option (List ℚ))
    (subject user_query : String) (min_score : ℚ) :
    (COLLECTIONS subject = none →
      get_relevant_context sim dbColl embed subject user_query min_score
        = []) ∧
    (embed user_query = none →
      get_relevant_context sim dbColl embed subject user_query min_score
        = []) ∧
    (∀ q, embed user_query = some q →
      q.length ≠ OPENAI_EMBEDDING_DIMENSIONS →
      get_relevant_context sim dbColl embed subject user_query min_score
        = []) := by
  refine ⟨fun h => by simp [get_relevant_context, h], ?_, ?_⟩
  · intro h
    rcases hc : COLLECTIONS subject with _ | cn <;>
      simp [get_relevant_context, hc, h]
  · intro q hq hlen
    rcases hc : COLLECTIONS subject with _ | cn
    · simp [get_relevant_context, hc]
    · by_cases hq0 : q = []
      · simp [get_relevant_context, hc, hq, hq0]
      · simp [get_relevant_context, hc, hq, hq0, hlen]

/-- C1: Fallback invariant of the Context Retriever.  Whenever the ranked
result list is non-empty but filtering by `min_score` removes every ranked
passage, `get_relevant_context` returns exactly the single top-ranked
passage text — a one-element list, never empty — and the score of that
passage is maximal among the ranked results. -/
theorem context_retriever_fallback_spec (sim : List ℚ → List ℚ → ℚ)
    (dbColl : String → List StoredDoc) (embed : String → Option (List ℚ))
    (subject user_query cn : String) (min_score : ℚ) (q : List ℚ)
    (top : ScoredResult) (rest : List ScoredResult)
    (hc : COLLECTIONS subject = some cn)
    (he : embed user_query = some q)
    (hq : q ≠ [])
    (hd : q.length = OPENAI_EMBEDDING_DIMENSIONS)
    (hres : vector_search sim (dbColl cn) q TOP_K_RESULTS = top :: rest)
    (hfil : (top :: rest).filter
        (fun r => min_score ≤ r.score ∧ r.text ≠ "") = []) :
    get_relevant_context sim dbColl embed subject user_query min_score =
      [top.text] ∧
    ∀ r ∈ top :: rest, r.score ≤ top.score := by
  have htop : top.text ≠ "" :=
    vector_search_text_all sim (dbColl cn) q TOP_K_RESULTS top
      (by rw [hres]; exact List.mem_cons_self _ _)
  constructor
  · simp only [get_relevant_context, hc, he, hres]
    rw [if_neg hq, if_neg (by simp [hd]), hfil,
      if_pos (show ([] : List ScoredResult) = [] ∧ top :: rest ≠ [] from
        ⟨rfl, by simp⟩)]
    simp [htop]
  · have hs := vector_search_sorted sim (dbColl cn) q TOP_K_RESULTS
    rw [hres] at hs
    intro r hr
    rcases List.mem_cons.mp hr with rfl | hr2
    · exact le_refl _
    · exact (List.pairwise_cons.mp hs).1 r hr2

/-- C7: Conversation Store append semantics and frame condition.
Appending a turn under an absent conversation id appends a fresh record
containing exactly the user message then the assistant message (each with
its own timestamp field) with both `created_at` and `updated_at` set;
appending under an existing id rewrites only the first matching record —
the pair is appended after its prior messages and `updated_at` is
replaced — while every record before and after it is left unchanged. -/
theorem conversation_store_append_spec (store : List Conversation)
    (cid subj umsg amsg : String) (tU tA tUp tC : Nat) :
    (find_one store cid = none →
      persist_turn store cid subj umsg amsg tU tA tUp tC =
        store ++ [⟨cid, subj,
          [⟨"user", umsg, tU⟩, ⟨"assistant", amsg, tA⟩], some tC, tUp⟩]) ∧
    (∀ c, find_one store cid = some c →
      ∃ pre post, store = pre ++ c :: post ∧
        (∀ d ∈ pre, d.conversation_id ≠ cid) ∧
        persist_turn store cid subj umsg amsg tU tA tUp tC =
          pre ++ { c with
            messages := c.messages ++
              [⟨"user", umsg, tU⟩, ⟨"assistant", amsg, tA⟩],
            updated_at := tUp } :: post) := by
  constructor
  · intro h
    simp [persist_turn, h]
  · intro c h
    obtain ⟨pre, post, hsplit, hpre, hcid⟩ :=
      find_one_some_decomp store cid c h
    refine ⟨pre, post, hsplit, hpre, ?_⟩
    simp only [persist_turn, h]
    rw [hsplit, update_first_decomp pre post c cid _ tUp hpre hcid]

/-- C2: Out-of-domain short-circuit.  For every valid request (non-empty
message, known subject) whose retrieved context list is empty, `chat_api`
returns the fixed refusal with an empty model-call trace (the chat model
is never invoked) and the new store is the one obtained by persisting the
user/refusal pair — which afterwards is present at the conversation id,
its messages ending in that pair.  Moreover an empty candidate set makes
`vector_search` return an empty list (not a failure), and a corpus with
no documents always yields an empty context list, triggering this path. -/
theorem out_of_domain_spec (sim : List ℚ → List ℚ → ℚ)
    (dbColl : String → List StoredDoc) (embed : String → Option (List ℚ))
    (chat_completion : List ChatMsg → Except String String)
    (store : List Conversation)
    (user_message subject conversation_id : String)
    (tU tA tUp tC : Nat)
    (hm : user_message ≠ "") (hs : subject ≠ "")
    (hcoll : (COLLECTIONS subject).isSome = true)
    (hctx : get_relevant_context sim dbColl embed subject user_message
      (3/10) = []) :
    chat_api sim dbColl embed chat_completion store user_message subject
        conversation_id tU tA tUp tC =
      (.ok (out_of_domain_response_text subject) conversation_id,
       persist_turn store conversation_id subject user_message
         (out_of_domain_response_text subject) tU tA tUp tC,
       []) ∧
    (∃ c, find_one (persist_turn store conversation_id subject user_message
          (out_of_domain_response_text subject) tU tA tUp tC)
        conversation_id = some c ∧
      [⟨"user", user_message, tU⟩,
       ⟨"assistant", out_of_domain_response_text subject, tA⟩] <:+
        c.messages) ∧
    (∀ (q : List ℚ) (lim : Nat), vector_search sim [] q lim = []) ∧
    (∀ dbNone : String → List StoredDoc, (∀ s, dbNone s = []) →
      get_relevant_context sim dbNone embed subject user_message (3/10)
        = []) := by
  refine ⟨?_, persist_turn_find store conversation_id subject user_message
      (out_of_domain_response_text subject) tU tA tUp tC, ?_, ?_⟩
  · obtain ⟨cn, hcn⟩ := Option.isSome_iff_exists.mp hcoll
    simp only [chat_api, hcn, hctx]
    rw [if_neg (by simp [hm, hs])]
    simp
  · intro q lim
    simp [vector_search]
  · intro dbNone hdb
    rcases hc2 : COLLECTIONS subject with _ | cn2
    · simp [get_relevant_context, hc2]
    · rcases he2 : embed user_message with _ | q2
      · simp [get_relevant_context, hc2, he2]
      · by_cases hq0 : q2 = []
        · simp [get_relevant_context, hc2, he2, hq0]
        · by_cases hlen : q2.length = OPENAI_EMBEDDING_DIMENSIONS
          · simp [get_relevant_context, hc2, he2, hq0, hlen, hdb cn2,
              vector_search, scored_candidates]
          · simp [get_relevant_context, hc2, he2, hq0, hlen]

/-- C6: model-input assembly.  For every valid request that reaches the
model-call step, the single model invocation receives exactly: the
composed system prompt first, then the most recent at-most-10 prior
stored messages in their original order (the final segment of the stored
message list), then the new user message last. -/
theorem model_input_assembly_spec (sim : List ℚ → List ℚ → ℚ)
    (dbColl : String → List StoredDoc) (embed : String → Option (List ℚ))
    (chat_completion : List ChatMsg → Except String String)
    (store : List Conversation)
    (user_message subject conversation_id : String)
    (tU tA tUp tC : Nat) (ctx : List String)
    (hm : user_message ≠ "") (hs : subject ≠ "")
    (hcoll : (COLLECTIONS subject).isSome = true)
    (hctx : get_relevant_context sim dbColl embed subject user_message
      (3/10) = ctx)
    (hne : ctx ≠ []) :
    ∃ hist : List Message,
      hist = (stored_messages store conversation_id).drop
        ((stored_messages store conversation_id).length - 10) ∧
      hist <:+ stored_messages store conversation_id ∧
      hist.length ≤ 10 ∧
      (chat_api sim dbColl embed chat_completion store user_message
          subject conversation_id tU tA tUp tC).2.2 =
        [[⟨"system", create_teaching_prompt ctx
            (stored_messages store conversation_id)⟩] ++
          hist.map (fun m => (⟨m.role, m.content⟩ : ChatMsg)) ++
          [⟨"user", user_message⟩]] := by
  refine ⟨_, rfl, List.drop_suffix _ _, ?_, ?_⟩
  · rw [List.length_drop]
    omega
  · obtain ⟨cn, hcn⟩ := Option.isSome_iff_exists.mp hcoll
    simp only [chat_api, hcn, hctx]
    rw [if_neg (by simp [hm, hs])]
    rw [if_neg (by simp)]
    rw [if_neg hne]
    rcases chat_completion (build_model_input ctx
        (find_one store conversation_id) user_message) with e | ai <;>
      simp [build_model_input_eq, stored_messages]

/-- C8: atomicity on model failure.  When the chat-model invocation fails,
`chat_api` returns a 500-style error response carrying the exception text,
the stored conversations are unchanged, and the trace records the single
failed invocation — the handler itself is a total function, so the failure
never crashes it. -/
theorem model_failure_atomicity_spec (sim : List ℚ → List ℚ → ℚ)
    (dbColl : String → List StoredDoc) (embed : String → Option (List ℚ))
    (chat_completion : List ChatMsg → Except String String)
    (store : List Conversation)
    (user_message subject conversation_id : String)
    (tU tA tUp tC : Nat) (e : String)
    (hm : user_message ≠ "") (hs : subject ≠ "")
    (hcoll : (COLLECTIONS subject).isSome = true)
    (hne : get_relevant_context sim dbColl embed subject user_message
      (3/10) ≠ [])
    (hfail : chat_completion (build_model_input
        (get_relevant_context sim dbColl embed subject user_message (3/10))
        (find_one store conversation_id) user_message) = .error e) :
    chat_api sim dbColl embed chat_completion store user_message subject
        conversation_id tU tA tUp tC =
      (.serverError e, store,
       [build_model_input
         (get_relevant_context sim dbColl embed subject user_message
           (3/10))
         (find_one store conversation_id) user_message]) := by
  obtain ⟨cn, hcn⟩ := Option.isSome_iff_exists.mp hcoll
  simp only [chat_api, hcn]
  rw [if_neg (by simp [hm, hs])]
  rw [if_neg (by simp)]
  rw [if_neg hne, hfail]

/-! ### Witnesses -/

/-- Witness for C1: a single passage scoring 0 — below the threshold
3/10 — is still returned by the fallback. -/
theorem context_retriever_fallback_spec_witness :
    get_relevant_context simZero dbOneDoc embedConst "Computer" "query"
      (3/10) = ["doc"] := by
  have h := context_retriever_fallback_spec simZero dbOneDoc embedConst
    "Computer" "query" "Computer" (3/10)
    (List.replicate OPENAI_EMBEDDING_DIMENSIONS 1) ⟨"doc", 0⟩ [] rfl rfl
    (by simp only [Ne, List.replicate_eq_nil_iff]; decide)
    (by simp only [List.length_replicate])
    (by simp [vector_search, scored_candidates, dbOneDoc, simZero,
      TOP_K_RESULTS])
    (by norm_num [List.filter])
  exact h.1

/-- Witness for C2: a valid request against an empty corpus receives the
refusal, the pair is persisted, and the model is not called. -/
theorem out_of_domain_spec_witness :
    chat_api simZero dbEmpty embedConst chatOk [] "hi" "Math" "c1"
      0 1 2 3 =
      (.ok (out_of_domain_response_text "Math") "c1",
       persist_turn [] "c1" "Math" "hi"
         (out_of_domain_response_text "Math") 0 1 2 3,
       []) := by
  have h0 : OPENAI_EMBEDDING_DIMENSIONS ≠ 0 := by decide
  have h := out_of_domain_spec simZero dbEmpty embedConst chatOk []
    "hi" "Math" "c1" 0 1 2 3 (by decide) (by decide) rfl
    (by simp [get_relevant_context, COLLECTIONS, embedConst, dbEmpty,
      vector_search, List.replicate_eq_nil_iff, h0])
  exact h.1

/-- Witness for C5: an unknown subject fails closed. -/
theorem fail_closed_retrieval_spec_witness :
    get_relevant_context simZero dbOneDoc embedConst "Physics" "q" (3/10)
      = [] :=
  (fail_closed_retrieval_spec simZero dbOneDoc embedConst "Physics" "q"
    (3/10)).1 rfl

/-- Witness for C6 at an empty store and a one-document corpus scoring
above threshold. -/
theorem model_input_assembly_spec_witness :
    ∃ hist : List Message,
      hist = (stored_messages [] "c1").drop
        ((stored_messages [] "c1").length - 10) ∧
      hist <:+ stored_messages [] "c1" ∧
      hist.length ≤ 10 ∧
      (chat_api simOne dbOneDoc embedConst chatOk [] "hi" "Computer" "c1"
          0 1 2 3).2.2 =
        [[⟨"system", create_teaching_prompt ["doc"]
            (stored_messages [] "c1")⟩] ++
          hist.map (fun m => (⟨m.role, m.content⟩ : ChatMsg)) ++
          [⟨"user", "hi"⟩]] := by
  have h0 : OPENAI_EMBEDDING_DIMENSIONS ≠ 0 := by decide
  have hvs : vector_search simOne (dbOneDoc "Computer")
      (List.replicate OPENAI_EMBEDDING_DIMENSIONS 1) TOP_K_RESULTS =
      [⟨"doc", 1⟩] := by
    simp [vector_search, scored_candidates, dbOneDoc, simOne,
      TOP_K_RESULTS]
  exact model_input_assembly_spec simOne dbOneDoc embedConst chatOk []
    "hi" "Computer" "c1" 0 1 2 3 ["doc"] (by decide) (by decide) rfl
    (by norm_num [get_relevant_context, COLLECTIONS, embedConst,
      List.replicate_eq_nil_iff, h0, hvs, List.filter] <;> simp)
    (by decide)

/-- Witness for C7: appending under a fresh id creates exactly the
two-message record. -/
theorem conversation_store_append_spec_witness :
    persist_turn [] "c1" "Math" "u" "a" 0 1 2 3 =
      [⟨"c1", "Math", [⟨"user", "u", 0⟩, ⟨"assistant", "a", 1⟩],
        some 3, 2⟩] :=
  (conversation_store_append_spec [] "c1" "Math" "u" "a" 0 1 2 3).1 rfl

/-- Witness for C8: a raising model yields a 500-style result and leaves
the store unchanged. -/
theorem model_failure_atomicity_spec_witness :
    chat_api simOne dbOneDoc embedConst chatFail [] "hi" "Computer" "c1"
      0 1 2 3 =
      (.serverError "boom", [],
       [build_model_input
         (get_relevant_context simOne dbOneDoc embedConst "Computer" "hi"
           (3/10))
         (find_one [] "c1") "hi"]) := by
  have h0 : OPENAI_EMBEDDING_DIMENSIONS ≠ 0 := by decide
  have hvs : vector_search simOne (dbOneDoc "Computer")
      (List.replicate OPENAI_EMBEDDING_DIMENSIONS 1) TOP_K_RESULTS =
      [⟨"doc", 1⟩] := by
    simp [vector_search, scored_candidates, dbOneDoc, simOne,
      TOP_K_RESULTS]
  have hctx : get_relevant_context simOne dbOneDoc embedConst "Computer"
      "hi" (3/10) = ["doc"] := by
    norm_num [get_relevant_context, COLLECTIONS, embedConst,
      List.replicate_eq_nil_iff, h0, hvs, List.filter] <;> simp
  exact model_failure_atomicity_spec simOne dbOneDoc embedConst chatFail
    [] "hi" "Computer" "c1" 0 1 2 3 "boom" (by decide) (by decide) rfl
    (by rw [hctx]; decide) rfl

/-- Witness for C9 at two passages. -/
theorem prompt_composer_spec_witness :
    ∃ before after, create_teaching_prompt ["a", "b"] [] =
      before ++ String.intercalate "\n\n" ["a", "b"] ++ after :=
  (prompt_composer_spec ["a", "b"] []).1 (by decide)

/-- Witness for C10: the passage retrieved from the one-document corpus is
a non-empty string. -/
theorem retrieval_text_nonempty_spec_witness : ("doc" : String) ≠ "" := by
  have h0 : OPENAI_EMBEDDING_DIMENSIONS ≠ 0 := by decide
  have hvs : vector_search simOne (dbOneDoc "Computer")
      (List.replicate OPENAI_EMBEDDING_DIMENSIONS 1) TOP_K_RESULTS =
      [⟨"doc", 1⟩] := by
    simp [vector_search, scored_candidates, dbOneDoc, simOne,
      TOP_K_RESULTS]
  have hctx : get_relevant_context simOne dbOneDoc embedConst "Computer"
      "hi" (3/10) = ["doc"] := by
    norm_num [get_relevant_context, COLLECTIONS, embedConst,
      List.replicate_eq_nil_iff, h0, hvs, List.filter] <;> simp
  exact (retrieval_text_nonempty_spec simOne dbOneDoc embedConst
    (dbOneDoc "Computer") (List.replicate OPENAI_EMBEDDING_DIMENSIONS 1)
    TOP_K_RESULTS "Computer" "hi" (3/10)).2 "doc"
    (by rw [hctx]; exact List.mem_singleton.mpr rfl)

/-- Witness for C4: equal non-zero vectors have cosine similarity
exactly 1. -/
theorem cosine_similarity_spec_witness : cosine_similarity [1] [1] = 1 :=
  (cosine_similarity_spec [1] [1]).2.2 rfl
    (by norm_num [npNorm, npDot, Real.sqrt_one])
